import Mathlib

/-!
Verification of the access-control and state-consistency core of the
WhatsApp group list manager. The definitions below are a shallow embedding
of the TypeScript source: the page-level handlers (`SharedList`,
`ListEditor`, `CreateList`, `ImageUpload`, `CollaborationPanel`,
`Dashboard`) are translated into pure Lean functions; React state updates
become explicit state passing, the document store is modelled as the list
of records it holds, and store failures are modelled by an explicit
`storeOk` flag (the `catch` branches leave the in-memory state unchanged
and surface a store error).
-/

namespace WhatsAppListManager

/-- Requester identity delivered by the identity provider
(`blink.auth.onAuthStateChanged`). -/
structure User where
  id : String
  email : String
  displayName : Option String := none
deriving DecidableEq, Repr

/-- A record of the `lists` collection (interface `List` in
`SharedList`/`ListEditor`). -/
structure ListRec where
  id : String
  title : String
  description : String
  templateType : String
  language : String
  isShared : Bool
  shareToken : String
  userId : String
deriving DecidableEq, Repr

/-- A record of the `listItems` collection (interface `ListItem`). -/
structure Item where
  id : String
  content : String
  isChecked : Bool
  orderIndex : Nat
deriving DecidableEq, Repr

/-- A record of the `listImages` collection (interface `UploadedImage`). -/
structure Img where
  id : String
  filename : String
  url : String
  size : Nat
deriving DecidableEq, Repr

/-- Collaborator roles as stored in `listCollaborators.role`
(`'owner' | 'editor' | 'viewer'`). -/
inductive Role where
  | owner
  | editor
  | viewer
deriving DecidableEq, Repr

/-- Invitation status stored in `listCollaborators.status`
(`'pending' | 'accepted'`). -/
inductive Status where
  | pending
  | accepted
deriving DecidableEq, Repr

/-- A record of the `listCollaborators` collection, as written by
`CollaborationPanel.inviteCollaborator`. -/
structure CollabRec where
  id : String
  listId : String
  userId : String
  userEmail : String
  userDisplayName : String
  role : Role
  status : Status
  invitedBy : String
  joinedAt : String
deriving DecidableEq, Repr

/-- A file chosen in the `<input type="file">` element of `ImageUpload`
(name, declared byte size, declared MIME content type). -/
structure FileRec where
  name : String
  size : Nat
  ftype : String
deriving DecidableEq, Repr

/-- `SharedList`: `canEdit = userRole === 'owner' || userRole === 'editor'`;
`userRole` is `null` (here `none`) when no role was resolved. -/
def canEdit (userRole : Option Role) : Bool :=
  userRole == some Role.owner || userRole == some Role.editor

/-- `SharedList`: `canManageSettings = userRole === 'owner'`. -/
def canManageSettings (userRole : Option Role) : Bool :=
  userRole == some Role.owner

/-- `SharedList.loadSharedList`, token lookup step:
`blink.db.lists.list({ where: { shareToken, isShared: true } })` followed by
taking `listData[0]`; empty result means the not-found path. -/
def lookupSharedList (db : List ListRec) (token : String) : Option ListRec :=
  db.find? (fun l => l.shareToken == token && l.isShared)

/-- `SharedList.loadSharedList`, role determination step (the
`// Determine user role` block): owner when `sharedList.userId === user.id`,
else the matching collaborator record's role with `'viewer'` as the
default (`collaboration?.role || 'viewer'`), and `'viewer'` for
anonymous requesters. This code only runs on a list obtained from
`lookupSharedList`, hence on a list with `isShared = true`. -/
def roleFor (user : Option User) (sharedList : ListRec)
    (collaboratorsData : List CollabRec) : Role :=
  match user with
  | none => Role.viewer
  | some u =>
    if sharedList.userId == u.id then Role.owner
    else
      match collaboratorsData.find? (fun c => c.userId == u.id) with
      | some c => c.role
      | none => Role.viewer

/-- `SharedList.loadSharedList` end to end: resolve the token, then load
that list's collaborator records
(`blink.db.listCollaborators.list({ where: { listId } })`) and determine
the requester's role; `none` is the `navigate('/')` not-found path, on
which no role is assigned (`userRole` stays `null`). -/
def loadSharedList (db : List ListRec) (allCollabs : List CollabRec)
    (token : String) (user : Option User) : Option (ListRec × Role) :=
  match lookupSharedList db token with
  | none => none
  | some sharedList =>
    let collaboratorsData := allCollabs.filter (fun c => c.listId == sharedList.id)
    some (sharedList, roleFor user sharedList collaboratorsData)

/-- Errors surfaced by the mutating handlers. The source surfaces a store
failure through its `catch` branch (a destructive toast); no handler ever
raises a distinct unauthorized error — `unauthorized` exists here so that
theorems can state its absence. -/
inductive OpError where
  | unauthorized
  | storeFailed
deriving DecidableEq, Repr

/-- The partial update objects passed to `updateItem` at its call sites
(`{ isChecked: ... }` or `{ content: ... }`); `orderIndex` is never
passed. -/
structure ItemUpdates where
  content : Option String := none
  isChecked : Option Bool := none
deriving DecidableEq, Repr

/-- `{ ...item, ...updates }` for an `ItemUpdates` object. -/
def applyItemUpdates (u : ItemUpdates) (it : Item) : Item :=
  { it with
    content := u.content.getD it.content
    isChecked := u.isChecked.getD it.isChecked }

/-- `SharedList.addItem`: `if (!list || !canEdit) return` (silent denial),
else create an item with `orderIndex: items.length` and append it
(`setItems([...items, newItem])`). The generated identifier
(`item_${Date.now()}_...`) is environment supplied and is taken as the
`newId` parameter; a failing store call leaves `items` unchanged. -/
def addItem (userRole : Option Role) (storeOk : Bool) (items : List Item)
    (newId : String) : List Item × Option OpError :=
  if !canEdit userRole then (items, none)
  else if storeOk then
    (items ++ [{ id := newId, content := "", isChecked := false,
                 orderIndex := items.length }], none)
  else (items, some OpError.storeFailed)

/-- `SharedList.updateItem`: `if (!canEdit) return` (silent denial), else
merge the updates into the matching item
(`items.map(item => item.id === itemId ? { ...item, ...updates } : item)`). -/
def updateItem (userRole : Option Role) (storeOk : Bool) (items : List Item)
    (itemId : String) (updates : ItemUpdates) : List Item × Option OpError :=
  if !canEdit userRole then (items, none)
  else if storeOk then
    (items.map (fun it => if it.id == itemId then applyItemUpdates updates it else it), none)
  else (items, some OpError.storeFailed)

/-- `SharedList.removeItem`: `if (!canEdit) return` (silent denial), else
delete the item and keep the rest unchanged
(`setItems(items.filter(item => item.id !== itemId))`) — no renumbering of
the remaining items' `orderIndex` values is performed. -/
def removeItem (userRole : Option Role) (storeOk : Bool) (items : List Item)
    (itemId : String) : List Item × Option OpError :=
  if !canEdit userRole then (items, none)
  else if storeOk then
    (items.filter (fun it => it.id != itemId), none)
  else (items, some OpError.storeFailed)

/-- The partial update objects passed to `updateList` at its call sites
(title, description, language or the `isShared` switch). -/
structure ListUpdates where
  title : Option String := none
  description : Option String := none
  language : Option String := none
  isShared : Option Bool := none
deriving DecidableEq, Repr

/-- `{ ...list, ...updates }` for a `ListUpdates` object. -/
def applyListUpdates (u : ListUpdates) (l : ListRec) : ListRec :=
  { l with
    title := u.title.getD l.title
    description := u.description.getD l.description
    language := u.language.getD l.language
    isShared := u.isShared.getD l.isShared }

/-- `SharedList.updateList`: `if (!list || !canManageSettings) return`
(silent denial), else write the merged record
(`setList({ ...list, ...updates })`); a failing store call leaves the list
unchanged. -/
def updateList (userRole : Option Role) (storeOk : Bool) (l : ListRec)
    (updates : ListUpdates) : ListRec × Option OpError :=
  if !canManageSettings userRole then (l, none)
  else if storeOk then (applyListUpdates updates l, none)
  else (l, some OpError.storeFailed)

/-- A successful item mutation of the kind quantified over by the ordering
claim: append via `addItem`, check-toggle via `updateItem`, delete via
`removeItem`. -/
inductive ItemMutation where
  | add (newId : String)
  | setChecked (itemId : String) (b : Bool)
  | remove (itemId : String)
deriving DecidableEq, Repr

/-- Whether a mutation is a `removeItem` call. -/
def ItemMutation.isRemove : ItemMutation → Bool
  | .remove _ => true
  | _ => false

/-- One successful mutation (authorized requester, store call succeeds)
applied to the in-memory item state, in terms of the handlers above. -/
def applyMutation (items : List Item) : ItemMutation → List Item
  | .add newId => (addItem (some Role.owner) true items newId).1
  | .setChecked itemId b =>
    (updateItem (some Role.owner) true items itemId
      { content := none, isChecked := some b }).1
  | .remove itemId => (removeItem (some Role.owner) true items itemId).1

/-- A sequence of successful item mutations. -/
def applyMutations (items : List Item) (ms : List ItemMutation) : List Item :=
  ms.foldl applyMutation items

/-- Dense ordering: the multiset of `orderIndex` values of the current
items is exactly `{0, ..., n-1}`, `n` the item count — no duplicates, no
gaps. -/
def denseOrder (items : List Item) : Prop :=
  (items.map (fun it => it.orderIndex)).Perm (List.range items.length)

/-- Common shape of the two `generateWhatsAppMessage` implementations,
abstracted over the two constants in which they differ: the separator
string emitted between lines and the trailing attribution line. Both
implementations follow this template line for line. -/
def buildMessage (sep attrib : String) (list : Option ListRec)
    (items : List Item) (images : List Img) : String :=
  match list with
  | none => ""
  | some l =>
    let m := "*" ++ l.title ++ "*" ++ sep
    let m := if l.description == "" then m else m ++ "_" ++ l.description ++ "_" ++ sep
    let m := m ++ sep
    let m := items.enum.foldl
      (fun acc p =>
        acc ++ (if p.2.isChecked then "✅" else "☐") ++ " " ++
          toString (p.1 + 1) ++ ". " ++ p.2.content ++ sep) m
    let m := if images.isEmpty then m
      else images.enum.foldl
        (fun acc p => acc ++ toString (p.1 + 1) ++ ". " ++ p.2.url ++ sep)
        (m ++ sep ++ "📸 *Images:*" ++ sep)
    m ++ sep ++ attrib

namespace SharedList

/-- `generateWhatsAppMessage` of the shared-list view (`SharedList`):
`''` when no list is loaded; bold title line; italic description line when
the description is non-empty (`if (list.description)`); blank line; one
line per item `<glyph> <index+1>. <content>` with glyph ✅ when
`Number(item.isChecked) > 0` else ☐; when images are present a
`📸 *Images:*` header then one numbered URL line per image; finally the
attribution `_Shared via WhatsApp List Manager_`. Lines are separated by
real newline characters (the source writes `\n` inside its template
literals). -/
def generateWhatsAppMessage (list : Option ListRec) (items : List Item)
    (images : List Img) : String :=
  match list with
  | none => ""
  | some l =>
    let m := "*" ++ l.title ++ "*" ++ "\n"
    let m := if l.description == "" then m else m ++ "_" ++ l.description ++ "_" ++ "\n"
    let m := m ++ "\n"
    let m := items.enum.foldl
      (fun acc p =>
        acc ++ (if p.2.isChecked then "✅" else "☐") ++ " " ++
          toString (p.1 + 1) ++ ". " ++ p.2.content ++ "\n") m
    let m := if images.isEmpty then m
      else images.enum.foldl
        (fun acc p => acc ++ toString (p.1 + 1) ++ ". " ++ p.2.url ++ "\n")
        (m ++ "\n" ++ "📸 *Images:*" ++ "\n")
    m ++ "\n" ++ "_Shared via WhatsApp List Manager_"

/-- In-memory state of the `SharedList` page that the serializer reads. -/
structure PageState where
  list : Option ListRec
  items : List Item
  images : List Img
  collaborators : List CollabRec
deriving DecidableEq, Repr

/-- `SharedList.copyToClipboard` and the preview pane: serialize the
current page state and return the message; the page state itself is only
read, never written. -/
def renderMessage (st : PageState) : PageState × String :=
  (st, generateWhatsAppMessage st.list st.items st.images)

end SharedList

namespace ListEditor

/-- `generateWhatsAppMessage` of the list editor view (`ListEditor`).
Structurally identical to the shared view's serializer, but its template
literals contain the escape `\\n`, so every separator it emits is the
literal two-character sequence backslash-n rather than a newline
character, and its attribution line reads
`_Created with WhatsApp List Manager_`. -/
def generateWhatsAppMessage (list : Option ListRec) (items : List Item)
    (images : List Img) : String :=
  match list with
  | none => ""
  | some l =>
    let m := "*" ++ l.title ++ "*" ++ "\\n"
    let m := if l.description == "" then m else m ++ "_" ++ l.description ++ "_" ++ "\\n"
    let m := m ++ "\\n"
    let m := items.enum.foldl
      (fun acc p =>
        acc ++ (if p.2.isChecked then "✅" else "☐") ++ " " ++
          toString (p.1 + 1) ++ ". " ++ p.2.content ++ "\\n") m
    let m := if images.isEmpty then m
      else images.enum.foldl
        (fun acc p => acc ++ toString (p.1 + 1) ++ ". " ++ p.2.url ++ "\\n")
        (m ++ "\\n" ++ "📸 *Images:*" ++ "\\n")
    m ++ "\\n" ++ "_Created with WhatsApp List Manager_"

end ListEditor

/-- The quota errors `ImageUpload.handleFileSelect` alerts with, each
naming the breached limit (`Maximum ${maxImages} images allowed` and
`Total size would exceed ... limit`). -/
inductive QuotaError where
  | maxImagesExceeded
  | maxTotalSizeExceeded
deriving DecidableEq, Repr

/-- `ImageUpload.getTotalSize`:
`images.reduce((total, img) => total + img.size, 0)`. -/
def getTotalSize (images : List Img) : Nat :=
  images.foldl (fun total img => total + img.size) 0

/-- Byte total of a batch of selected files:
`files.reduce((total, file) => total + file.size, 0)`. -/
def filesTotalSize (files : List FileRec) : Nat :=
  files.foldl (fun total f => total + f.size) 0

/-- `ImageUpload.handleFileSelect`. Returns the resulting attachment set,
the ordered trace of files actually uploaded to blob storage, and the
quota error raised, if any. The source: returns at once on an empty
selection; then — before any upload or store mutation — rejects the whole
batch when `images.length + files.length > maxImages`, then when
`currentTotalSize + newFilesSize > maxTotalSize`; otherwise uploads each
file whose declared content type starts with `image/` (others are skipped
with an alert) and commits `[...images, ...newImages]` in one call to
`onImagesChange`. `idGen`/`urlGen` model the environment-generated file
identifier (`img_${Date.now()}_...`) and the public URL returned by blob
storage; filename and size are taken from the file itself. -/
def handleFileSelect (idGen urlGen : FileRec → String) (images : List Img)
    (maxImages maxTotalSize : Nat) (files : List FileRec) :
    List Img × List FileRec × Option QuotaError :=
  if files.isEmpty then (images, [], none)
  else if images.length + files.length > maxImages then
    (images, [], some QuotaError.maxImagesExceeded)
  else if getTotalSize images + filesTotalSize files > maxTotalSize then
    (images, [], some QuotaError.maxTotalSizeExceeded)
  else
    let uploaded := files.filter (fun f => f.ftype.startsWith "image/")
    (images ++ uploaded.map (fun f =>
       { id := idGen f, filename := f.name, url := urlGen f, size := f.size }),
     uploaded, none)

/-- JavaScript whitespace as stripped by `String.prototype.trim`. -/
def jsWhitespace (c : Char) : Bool :=
  c == ' ' || c == '\t' || c == '\n' || c == '\r'

/-- JavaScript `inviteEmail.trim()`: strip leading and trailing
whitespace. -/
def jsTrim (s : String) : String :=
  String.mk (((s.data.dropWhile jsWhitespace).reverse.dropWhile jsWhitespace).reverse)

/-- The local part of an email address:
`inviteEmail.split('@')[0]` — the text before the first `@` (the whole
string when there is none, as JavaScript `split` always yields a non-empty
array). -/
def emailLocalPart (email : String) : String :=
  String.mk (email.data.takeWhile (fun c => c != '@'))

/-- `CollaborationPanel.inviteCollaborator`: returns at once on a
blank email (`if (!inviteEmail.trim()) return`) or when a collaborator
with that email already exists; otherwise creates a collaborator record
with `userId: currentUser.id` (the inviter — the source comment reads
`This will be updated when the invited user accepts`),
`userDisplayName: inviteEmail.split('@')[0]`, the chosen role,
`status: 'pending'` and `invitedBy: currentUser.id`, then reloads the
collaborator set. Returns the new collaborator set and the record
created, if any; `newId` and `now` model the environment-generated
identifier and timestamp. -/
def inviteCollaborator (currentUser : User) (listId : String)
    (collaborators : List CollabRec) (inviteEmail : String) (inviteRole : Role)
    (newId now : String) : List CollabRec × Option CollabRec :=
  if jsTrim inviteEmail == "" then (collaborators, none)
  else
    match collaborators.find? (fun c => c.userEmail == inviteEmail) with
    | some _ => (collaborators, none)
    | none =>
      let newRec : CollabRec :=
        { id := newId, listId := listId, userId := currentUser.id,
          userEmail := inviteEmail, userDisplayName := emailLocalPart inviteEmail,
          role := inviteRole, status := Status.pending,
          invitedBy := currentUser.id, joinedAt := now }
      (collaborators ++ [newRec], some newRec)

/-- The actions of the authorization table. -/
inductive Action where
  | viewList
  | editMetadata
  | editItems
  | manageAttachments
  | manageCollaborators
  | deleteList
deriving DecidableEq, Repr

/-- The permission gate assembled from the guards scattered across the
source, as a function of the resolved role (`none` = no role resolved):
`viewList` — the shared page renders for any resolved role, including the
anonymous viewer; `editMetadata` — `updateList` is guarded by
`canManageSettings`; `editItems` — `addItem`/`updateItem`/`removeItem`
are guarded by `canEdit`; `manageAttachments` — `handleImagesChange` is
guarded by `canEdit`; `manageCollaborators` — the invite / role-change /
remove controls of `CollaborationPanel` are gated by `isOwner`, and the
panel is only mounted from owner-scoped pages (`Dashboard` with
`isOwner={true}`, `ListEditor` over lists loaded with
`where: { userId: user.id }`); `deleteList` — `Dashboard.deleteList` is
reachable only over the requester's own lists
(`where: { userId: user.id }`). -/
def permits (userRole : Option Role) : Action → Bool
  | Action.viewList => userRole.isSome
  | Action.editMetadata => canManageSettings userRole
  | Action.editItems => canEdit userRole
  | Action.manageAttachments => canEdit userRole
  | Action.manageCollaborators => userRole == some Role.owner
  | Action.deleteList => userRole == some Role.owner

/-! Concrete fixtures used by scenario theorems, witnesses and
counterexamples. -/

/-- The list of the serializer scenario: title `Groceries`, empty
description. -/
def groceries : ListRec :=
  { id := "l1", title := "Groceries", description := "", templateType := "custom",
    language := "en", isShared := true, shareToken := "tok1", userId := "u1" }

/-- The items of the serializer scenario: `Milk` checked at index 0,
`Eggs` unchecked at index 1. -/
def milkEggs : List Item :=
  [ { id := "i1", content := "Milk", isChecked := true, orderIndex := 0 },
    { id := "i2", content := "Eggs", isChecked := false, orderIndex := 1 } ]

/-- A stored list whose `isShared` flag is off. -/
def unsharedList : ListRec :=
  { id := "l2", title := "Private", description := "", templateType := "custom",
    language := "en", isShared := false, shareToken := "tok2", userId := "u1" }

/-- The user who owns both fixture lists. -/
def ownerUser : User :=
  { id := "u1", email := "owner@example.com" }

/-- A single stored item used by the denial counterexample. -/
def sampleItem : Item :=
  { id := "i1", content := "Milk", isChecked := false, orderIndex := 0 }

/-- A selected file of one byte with an image content type. -/
def sampleFile : FileRec :=
  { name := "a.png", size := 1, ftype := "image/png" }

/-- C6: the permission gate assembled from the source guards realises the
authorization table: an editor passes exactly viewList, editItems and
manageAttachments (metadata updates, collaborator management and list
deletion are denied); a viewer passes exactly viewList; a requester with
no resolved role passes nothing. -/
theorem C6_permission_table :
    permits (some Role.editor) Action.viewList = true ∧
    permits (some Role.editor) Action.editItems = true ∧
    permits (some Role.editor) Action.manageAttachments = true ∧
    permits (some Role.editor) Action.editMetadata = false ∧
    permits (some Role.editor) Action.manageCollaborators = false ∧
    permits (some Role.editor) Action.deleteList = false ∧
    permits (some Role.viewer) Action.viewList = true ∧
    permits (some Role.viewer) Action.editMetadata = false ∧
    permits (some Role.viewer) Action.editItems = false ∧
    permits (some Role.viewer) Action.manageAttachments = false ∧
    permits (some Role.viewer) Action.manageCollaborators = false ∧
    permits (some Role.viewer) Action.deleteList = false ∧
    permits none Action.viewList = false ∧
    permits none Action.editMetadata = false ∧
    permits none Action.editItems = false ∧
    permits none Action.manageAttachments = false ∧
    permits none Action.manageCollaborators = false ∧
    permits none Action.deleteList = false := by
  decide

/-- C7: on the Groceries scenario (empty description, Milk checked, Eggs
unchecked, no attachments) the shared-view serializer produces exactly the
bold title line, a blank line, the checked-glyph line `✅ 1. Milk`, the
unchecked-glyph line `☐ 2. Eggs`, a blank line and the attribution line,
joined by real newline characters, with no image section. -/
theorem C7_serializer_scenario :
    SharedList.generateWhatsAppMessage (some groceries) milkEggs [] =
      String.intercalate "\n"
        ["*Groceries*", "", "✅ 1. Milk", "☐ 2. Eggs", "",
         "_Shared via WhatsApp List Manager_"] := by
  rfl

/-- C8: the serializer is side-effect free and deterministic — rendering
the message leaves the page state unchanged, and rendering again on the
state returned by the first call yields a byte-identical message. -/
theorem C8_serializer_pure :
    ∀ st : SharedList.PageState,
    (SharedList.renderMessage st).1 = st ∧
    (SharedList.renderMessage (SharedList.renderMessage st).1).2 =
      (SharedList.renderMessage st).2 :=
  fun _ => ⟨rfl, rfl⟩

/-- C10 counterexample: on the same Groceries input the two serializer
implementations produce different text — the editor view emits literal
backslash-n character pairs and the attribution
`_Created with WhatsApp List Manager_`, the shared view emits newline
characters and `_Shared via WhatsApp List Manager_`. -/
theorem C10_serializers_counterexample :
    ListEditor.generateWhatsAppMessage (some groceries) milkEggs [] ≠
      SharedList.generateWhatsAppMessage (some groceries) milkEggs [] := by
  decide

/-- C10 amended: the two serializers follow one common template and differ
exactly in two constants — the editor view separates lines with the
literal two-character sequence backslash-n where the shared view uses a
newline character, and their attribution lines differ. -/
theorem C10_serializers_amended :
    ∀ (list : Option ListRec) (items : List Item) (images : List Img),
    ListEditor.generateWhatsAppMessage list items images =
      buildMessage "\\n" "_Created with WhatsApp List Manager_" list items images ∧
    SharedList.generateWhatsAppMessage list items images =
      buildMessage "\n" "_Shared via WhatsApp List Manager_" list items images :=
  fun _ _ _ => ⟨rfl, rfl⟩

/-- Appending via `addItem` preserves dense ordering: the new item takes
index `items.length`. -/
lemma denseOrder_append (items : List Item) (newId : String)
    (hd : denseOrder items) :
    denseOrder (items ++ [{ id := newId, content := "", isChecked := false,
                            orderIndex := items.length }]) := by
  unfold denseOrder at hd ⊢
  rw [List.map_append, List.length_append]
  simp only [List.map_cons, List.map_nil, List.length_cons, List.length_nil,
    Nat.zero_add, List.range_succ]
  exact hd.append_right _

/-- A check-toggle via `updateItem` changes neither the item count nor any
`orderIndex`. -/
lemma denseOrder_setChecked (items : List Item) (itemId : String) (b : Bool)
    (hd : denseOrder items) :
    denseOrder (applyMutation items (ItemMutation.setChecked itemId b)) := by
  unfold denseOrder at hd ⊢
  have hfun :
      ((fun it : Item => it.orderIndex) ∘
        (fun it : Item => if it.id == itemId then
            applyItemUpdates { content := none, isChecked := some b } it
          else it)) = fun it : Item => it.orderIndex := by
    funext it
    by_cases h : it.id = itemId <;> simp [h, applyItemUpdates]
  show ((items.map _).map _).Perm (List.range (items.map _).length)
  rw [List.map_map, hfun, List.length_map]
  exact hd

/-- Each single non-remove mutation preserves dense ordering. -/
lemma denseOrder_applyMutation (items : List Item) (m : ItemMutation)
    (hd : denseOrder items) (hm : m.isRemove = false) :
    denseOrder (applyMutation items m) := by
  cases m with
  | add newId => exact denseOrder_append items newId hd
  | setChecked itemId b => exact denseOrder_setChecked items itemId b hd
  | remove itemId => simp [ItemMutation.isRemove] at hm

/-- C1 counterexample: the successful mutation sequence
`addItem "a"; addItem "b"; removeItem "a"` leaves one item whose
`orderIndex` is 1, so the index set is `{1}`, not `{0}` — `removeItem`
performs no renumbering and leaves a gap. -/
theorem C1_ordering_counterexample :
    ¬ denseOrder (applyMutations []
      [ItemMutation.add "a", ItemMutation.add "b", ItemMutation.remove "a"]) := by
  unfold denseOrder
  decide

/-- C1 amended: `addItem` assigns `orderIndex = current count` and
`updateItem` never touches `orderIndex`, so after any sequence of
successful append and check-toggle mutations starting from a dense state
the index set is exactly `{0, ..., n-1}`; `removeItem` only deletes and
does not renumber, so sequences containing a removal are excluded. -/
theorem C1_ordering_amended :
    ∀ (ms : List ItemMutation) (items : List Item),
    denseOrder items → (∀ m ∈ ms, m.isRemove = false) →
    denseOrder (applyMutations items ms) := by
  intro ms
  induction ms with
  | nil => intro items hd _; simpa [applyMutations] using hd
  | cons m rest ih =>
    intro items hd hall
    have h1 : denseOrder (applyMutation items m) :=
      denseOrder_applyMutation items m hd (hall m (by simp))
    have hstep : applyMutations items (m :: rest) =
        applyMutations (applyMutation items m) rest := rfl
    rw [hstep]
    exact ih _ h1 (fun m' hm' => hall m' (by simp [hm']))

/-- C1 witness: appending one item and toggling it checked yields the
dense index set `{0}`. -/
theorem C1_ordering_witness :
    denseOrder (applyMutations []
      [ItemMutation.add "a", ItemMutation.setChecked "a" true]) :=
  C1_ordering_amended [ItemMutation.add "a", ItemMutation.setChecked "a" true] []
    (by unfold denseOrder; decide) (by decide)

/-- C2 counterexample: a viewer invoking `removeItem` on a stored item is
silently ignored — the handler returns the unchanged item list and raises
no error at all, rather than a distinct Unauthorized error. -/
theorem C2_unauthorized_counterexample :
    removeItem (some Role.viewer) true [sampleItem] "i1" = ([sampleItem], none) ∧
    (removeItem (some Role.viewer) true [sampleItem] "i1").2 ≠
      some OpError.unauthorized := by
  decide

/-- C2 amended: a denied mutation leaves the state unchanged but is
silently ignored — `removeItem` under a viewer or unresolved role and
`updateList` under any non-owner role return the unchanged state with no
error of any kind. -/
theorem C2_denied_silently_ignored :
    ∀ (storeOk : Bool) (items : List Item) (itemId : String) (l : ListRec)
      (updates : ListUpdates),
    removeItem (some Role.viewer) storeOk items itemId = (items, none) ∧
    removeItem none storeOk items itemId = (items, none) ∧
    updateList (some Role.editor) storeOk l updates = (l, none) ∧
    updateList (some Role.viewer) storeOk l updates = (l, none) ∧
    updateList none storeOk l updates = (l, none) :=
  fun _ _ _ _ _ => ⟨rfl, rfl, rfl, rfl, rfl⟩

/-- The amended role-resolution algorithm, stated from the words of the
amended claim: a role is produced only when the list is shared — owner if
the requester identity equals `List.userId`, else the matching
collaborator record's role, else viewer (including anonymous requesters);
when the list is not shared, no role is produced for any requester. -/
def amendedRoleResolver (user : Option User) (l : ListRec)
    (cs : List CollabRec) : Option Role :=
  if l.isShared then
    some (match user with
      | none => Role.viewer
      | some u =>
        if l.userId == u.id then Role.owner
        else
          match cs.find? (fun c => c.userId == u.id) with
          | some c => c.role
          | none => Role.viewer)
  else none

/-- C3 counterexample: the owner of a stored, unshared list resolves to
no role at all through the shared-list access path (the token lookup
filters on `isShared: true`), although the claim's algorithm puts the
owner check first and demands `owner` here. -/
theorem C3_role_counterexample :
    loadSharedList [unsharedList] [] unsharedList.shareToken (some ownerUser) = none ∧
    ownerUser.id = unsharedList.userId := by
  decide

/-- C3 amended: over a store whose share tokens are unique, the composite
resolution of `loadSharedList` equals the amended algorithm: no role for
any requester when the list is unshared, and otherwise owner / the
collaborator record's role / viewer in that order; moreover any resolved
list is the designated one. -/
theorem C3_role_amended :
    ∀ (db : List ListRec) (allCollabs : List CollabRec) (user : Option User)
      (l : ListRec),
    l ∈ db →
    (∀ l' ∈ db, l'.shareToken = l.shareToken → l'.isShared = true → l' = l) →
    (loadSharedList db allCollabs l.shareToken user).map (fun p => p.2) =
      amendedRoleResolver user l (allCollabs.filter (fun c => c.listId == l.id)) ∧
    (∀ p, loadSharedList db allCollabs l.shareToken user = some p → p.1 = l) := by
  intro db allCollabs user l hmem huniq
  unfold loadSharedList lookupSharedList amendedRoleResolver
  by_cases hsh : l.isShared
  · cases hfind : db.find? (fun l' => l'.shareToken == l.shareToken && l'.isShared) with
    | none =>
      exfalso
      have hnone := List.find?_eq_none.mp hfind l hmem
      simp [hsh] at hnone
    | some a =>
      have pa := List.find?_some hfind
      have amem := List.mem_of_find?_eq_some hfind
      simp only [Bool.and_eq_true, beq_iff_eq] at pa
      have ha : a = l := huniq a amem pa.1 pa.2
      subst ha
      refine ⟨?_, ?_⟩
      · simp only [hfind, Option.map_some, if_pos hsh]
        rfl
      · intro p hp
        simp only [hfind] at hp
        cases hp
        rfl
  · have hfind : db.find? (fun l' => l'.shareToken == l.shareToken && l'.isShared) = none := by
      apply List.find?_eq_none.mpr
      intro x hx hpx
      simp only [Bool.and_eq_true, beq_iff_eq] at hpx
      have hxl : x = l := huniq x hx hpx.1 hpx.2
      rw [hxl] at hpx
      exact hsh (by simpa using hpx.2)
    simp [hfind, hsh]

/-- C3 witness: an anonymous requester against a store holding only the
shared Groceries list resolves to viewer, matching the amended
algorithm. -/
theorem C3_role_amended_witness :
    (loadSharedList [groceries] [] groceries.shareToken none).map (fun p => p.2) =
      amendedRoleResolver none groceries
        (([] : List CollabRec).filter (fun c => c.listId == groceries.id)) ∧
    (∀ p, loadSharedList [groceries] [] groceries.shareToken none = some p →
      p.1 = groceries) :=
  C3_role_amended [groceries] [] none groceries (by simp)
    (by intro l' h1 _ _; simpa using h1)

/-- C4: a token resolves to a list only when that list has
`isShared = true`; when every stored list carrying the token is unshared,
resolution yields not-found — exactly the result for a token stored
nowhere. -/
theorem C4_token_gate :
    ∀ (db : List ListRec) (token : String),
    ((∀ l ∈ db, l.shareToken = token → l.isShared = false) →
      lookupSharedList db token = none) ∧
    (∀ l, lookupSharedList db token = some l → l.isShared = true) := by
  intro db token
  constructor
  · intro h
    apply List.find?_eq_none.mpr
    intro x hx hpx
    simp only [Bool.and_eq_true, beq_iff_eq] at hpx
    have := h x hx hpx.1
    rw [this] at hpx
    exact Bool.false_ne_true hpx.2
  · intro l hl
    have := List.find?_some hl
    simp only [Bool.and_eq_true, beq_iff_eq] at this
    exact this.2

/-- C4 witness: the stored but unshared fixture list is not found under
its own well-formed stored token. -/
theorem C4_token_gate_witness :
    lookupSharedList [unsharedList] unsharedList.shareToken = none :=
  (C4_token_gate [unsharedList] unsharedList.shareToken).1 (by decide)

/-- The size fold over attachments from an arbitrary accumulator. -/
lemma foldl_size_img (l : List Img) (n : Nat) :
    l.foldl (fun total img => total + img.size) n = n + getTotalSize l := by
  induction l generalizing n with
  | nil => simp [getTotalSize]
  | cons a t ih =>
    show List.foldl _ (n + a.size) t = n + getTotalSize (a :: t)
    rw [ih]
    show n + a.size + getTotalSize t = n + List.foldl _ (0 + a.size) t
    rw [ih]
    omega

/-- The size fold over selected files from an arbitrary accumulator. -/
lemma foldl_size_file (l : List FileRec) (n : Nat) :
    l.foldl (fun total f => total + f.size) n = n + filesTotalSize l := by
  induction l generalizing n with
  | nil => simp [filesTotalSize]
  | cons a t ih =>
    show List.foldl _ (n + a.size) t = n + filesTotalSize (a :: t)
    rw [ih]
    show n + a.size + filesTotalSize t = n + List.foldl _ (0 + a.size) t
    rw [ih]
    omega

/-- Attachment byte totals add over concatenation. -/
lemma getTotalSize_append (a b : List Img) :
    getTotalSize (a ++ b) = getTotalSize a + getTotalSize b := by
  unfold getTotalSize
  rw [List.foldl_append, foldl_size_img]
  rfl

/-- `filesTotalSize` over a cons. -/
lemma filesTotalSize_cons (a : FileRec) (t : List FileRec) :
    filesTotalSize (a :: t) = a.size + filesTotalSize t := by
  show List.foldl _ (0 + a.size) t = a.size + filesTotalSize t
  rw [foldl_size_file]
  omega

/-- The images built from uploaded files carry exactly the files' byte
sizes. -/
lemma getTotalSize_map_upload (idGen urlGen : FileRec → String)
    (files : List FileRec) :
    getTotalSize (files.map (fun f =>
      { id := idGen f, filename := f.name, url := urlGen f, size := f.size })) =
      filesTotalSize files := by
  induction files with
  | nil => rfl
  | cons a t ih =>
    rw [List.map_cons]
    show List.foldl _ (0 + a.size) _ = filesTotalSize (a :: t)
    rw [foldl_size_img, ih, filesTotalSize_cons]
    omega

/-- Filtering a selection can only shrink its byte total. -/
lemma filesTotalSize_filter_le (p : FileRec → Bool) (l : List FileRec) :
    filesTotalSize (l.filter p) ≤ filesTotalSize l := by
  induction l with
  | nil => exact Nat.le_refl _
  | cons a t ih =>
    rw [List.filter_cons]
    by_cases hp : p a
    · rw [if_pos hp, filesTotalSize_cons, filesTotalSize_cons]
      omega
    · rw [if_neg hp, filesTotalSize_cons]
      omega

/-- C5: both quota checks run before any upload or store mutation — a
batch breaching the count limit, or passing it but breaching the byte
limit, is rejected whole with the error naming that limit, no file is
uploaded and the stored attachment set is unchanged; and whenever the
handler reports no quota error, the resulting attachment set respects
both limits (or the selection was empty and nothing changed). -/
theorem C5_quota_gate :
    ∀ (idGen urlGen : FileRec → String) (images : List Img)
      (maxImages maxTotalSize : Nat) (files : List FileRec),
    (files ≠ [] → images.length + files.length > maxImages →
      handleFileSelect idGen urlGen images maxImages maxTotalSize files =
        (images, [], some QuotaError.maxImagesExceeded)) ∧
    (files ≠ [] → images.length + files.length ≤ maxImages →
      getTotalSize images + filesTotalSize files > maxTotalSize →
      handleFileSelect idGen urlGen images maxImages maxTotalSize files =
        (images, [], some QuotaError.maxTotalSizeExceeded)) ∧
    ((handleFileSelect idGen urlGen images maxImages maxTotalSize files).2.2 = none →
      (files = [] ∧
        (handleFileSelect idGen urlGen images maxImages maxTotalSize files).1 = images) ∨
      ((handleFileSelect idGen urlGen images maxImages maxTotalSize files).1.length ≤
          maxImages ∧
        getTotalSize
          (handleFileSelect idGen urlGen images maxImages maxTotalSize files).1 ≤
          maxTotalSize)) := by
  intro idGen urlGen images maxI maxB files
  unfold handleFileSelect
  by_cases hemp : files.isEmpty
  · have hnil : files = [] := by simpa [List.isEmpty_iff] using hemp
    rw [if_pos hemp]
    exact ⟨fun h _ => absurd hnil h, fun h _ _ => absurd hnil h,
      fun _ => Or.inl ⟨hnil, rfl⟩⟩
  · rw [if_neg hemp]
    by_cases h1 : images.length + files.length > maxI
    · rw [if_pos h1]
      refine ⟨fun _ _ => rfl, fun _ h1' _ => absurd h1 (by omega), fun h => ?_⟩
      simp at h
    · rw [if_neg h1]
      by_cases h2 : getTotalSize images + filesTotalSize files > maxB
      · rw [if_pos h2]
        refine ⟨fun _ hgt => absurd hgt h1, fun _ _ _ => rfl, fun h => ?_⟩
        simp at h
      · rw [if_neg h2]
        refine ⟨fun _ hgt => absurd hgt h1, fun _ _ hgt => absurd hgt h2,
          fun _ => Or.inr ⟨?_, ?_⟩⟩
        · rw [List.length_append, List.length_map]
          have := List.length_filter_le (fun f => f.ftype.startsWith "image/") files
          omega
        · rw [getTotalSize_append, getTotalSize_map_upload]
          have := filesTotalSize_filter_le (fun f => f.ftype.startsWith "image/") files
          omega

/-- C5 witness: a one-file batch against a zero-image quota is rejected
naming the count limit, with no upload and no change. -/
theorem C5_quota_gate_witness :
    handleFileSelect (fun _ => "id") (fun _ => "url") [] 0 0 [sampleFile] =
      ([], [], some QuotaError.maxImagesExceeded) :=
  (C5_quota_gate (fun _ => "id") (fun _ => "url") [] 0 0 [sampleFile]).1
    (by decide) (by decide)

/-- C9: inviting a non-blank email that is not yet a collaborator creates
exactly one record, appended to the collaborator set, whose status is
pending and whose `userId` (and `invitedBy`) is the inviting user's own
identifier — not the invitee's identity, which is known only by email —
so a lookup of that record by `userId` yields the inviter. -/
theorem C9_invite_pending_inviter :
    ∀ (currentUser : User) (listId : String) (collaborators : List CollabRec)
      (inviteEmail : String) (inviteRole : Role) (newId now : String),
    jsTrim inviteEmail ≠ "" →
    collaborators.find? (fun c => c.userEmail == inviteEmail) = none →
    ∃ c,
      (inviteCollaborator currentUser listId collaborators inviteEmail inviteRole
        newId now).2 = some c ∧
      c.status = Status.pending ∧ c.userId = currentUser.id ∧
      c.invitedBy = currentUser.id ∧ c.userEmail = inviteEmail ∧
      (inviteCollaborator currentUser listId collaborators inviteEmail inviteRole
        newId now).1 = collaborators ++ [c] := by
  intro u listId cs email role newId now h1 h2
  have hb : (jsTrim email == "") = false := by simpa using h1
  unfold inviteCollaborator
  rw [hb, h2]
  exact ⟨_, rfl, rfl, rfl, rfl, rfl, rfl⟩

/-- C9 witness: inviting `friend@example.com` as editor on an empty
collaborator set creates the pending record keyed to the inviter. -/
theorem C9_invite_witness :
    ∃ c,
      (inviteCollaborator ownerUser "l1" [] "friend@example.com" Role.editor
        "c1" "t0").2 = some c ∧
      c.status = Status.pending ∧ c.userId = ownerUser.id ∧
      c.invitedBy = ownerUser.id ∧ c.userEmail = "friend@example.com" ∧
      (inviteCollaborator ownerUser "l1" [] "friend@example.com" Role.editor
        "c1" "t0").1 = [] ++ [c] :=
  C9_invite_pending_inviter ownerUser "l1" [] "friend@example.com" Role.editor
    "c1" "t0" (by decide) (by rfl)

end WhatsAppListManager
